import Mathlib

/-!
Verification of the Fee Computation Engine of the cepa-wise-insight
repository (the `ApplicationFeeStep` component and the fee pipeline it
drives). The component source is
`src/components/public/steps/ApplicationFeeStep.tsx`; the
`useFeeCalculation` hook it imports (parameter validation, the
classification resolver against the Supabase system of record, and the
prorated-fee formula) is not part of the repository snapshot, so those
parts are modelled from the specification (each such definition is
marked `Modelled from the spec:`). Monetary amounts are rationals,
matching the spec's decimal-safe arithmetic mandate.
-/

namespace CepaFee

/-- Monetary amounts, in PGK. Rationals model the spec's decimal-safe
arithmetic requirement. -/
abbrev Money := ℚ

/-- Round a monetary amount to 2 decimal places with round-half-up.
Modelled from the spec: the `useFeeCalculation` hook is absent from the
snapshot; the spec mandates rounding to the currency minor unit (2
decimal places) using round-half-up. -/
def roundHalfUp2 (q : Money) : Money :=
  ((Int.floor (q * 100 + 1 / 2) : ℤ) : ℚ) / 100

/-- Provenance of a resolved fee schedule: canonical record from the
system of record, or the built-in defensive default. -/
inductive FeeSource
  | Database
  | Default
deriving DecidableEq, Repr

/-- The classification request assembled by `handleCalculateFees`
(ApplicationFeeStep.tsx lines 36-42) and passed to the hook. All
fields are strings; absent data arrives as the empty string. -/
structure FeeCalculationParams where
  activityType : String
  activitySubCategory : String
  permitType : String
  activityLevel : String
  prescribedActivityId : String
deriving DecidableEq, Repr

/-- The resolved statutory basis of a computation: annual recurrent fee
plus statutory processing-day allowance, tagged with its provenance. -/
structure FeeSchedule where
  annualRecurrentFee : Money
  processingDays : ℕ
  source : FeeSource
deriving DecidableEq, Repr

/-- The fee breakdown object flowing through the component: the hook
returns one (with zero composite fee) and `handleCalculateFees` /
the permit-type-change effect rebuild it with the composite applied. -/
structure FeeBreakdown where
  administrationFee : Money
  compositeFee : Money
  totalFee : Money
  processingDays : ℕ
  administrationForm : String
  technicalForm : String
  source : FeeSource
deriving DecidableEq, Repr

/-- The `data` prop of `ApplicationFeeStep`: the draft-application
fields the component reads. JavaScript absent/undefined fields are
`none`. -/
structure StepData where
  permit_type : Option String
  permit_type_id : Option String
  activity_level : Option String
  activity_category : Option String
  activity_subcategory : Option String
  prescribed_activity_id : Option String
  calculatedFees : Option FeeBreakdown
deriving DecidableEq, Repr

/-- The component's hook-scoped state: `calculatedFees`,
`calculationError`, `validationErrors` (useState) and the
`hasCalculatedOnce` ref (ApplicationFeeStep.tsx lines 16-19). -/
structure ComponentState where
  calculatedFees : Option FeeBreakdown
  calculationError : String
  validationErrors : List String
  hasCalculatedOnce : Bool
deriving DecidableEq, Repr

/-- The object passed to `onChange` on a successful initial computation
(ApplicationFeeStep.tsx lines 67-79). -/
structure OnChangePayload where
  administration_fee : Money
  composite_fee : Money
  technical_fee : Money
  total_fee : Money
  fee_amount : Money
  processing_days : ℕ
  administration_form : String
  technical_form : String
  fee_source : FeeSource
  calculatedFees : FeeBreakdown
  fee_breakdown : FeeBreakdown
deriving DecidableEq, Repr

/-- The object passed to `onChange` by the permit-type-change
recomputation effect (ApplicationFeeStep.tsx lines 112-118). -/
structure RecalcPayload where
  composite_fee : Money
  total_fee : Money
  fee_amount : Money
  calculatedFees : FeeBreakdown
  fee_breakdown : FeeBreakdown
deriving DecidableEq, Repr

/-- JavaScript `x || ''` on an optional string field. -/
def orEmpty (o : Option String) : String := o.getD ""

/-- JavaScript truthiness of an optional string: present and non-empty. -/
def truthy (o : Option String) : Bool :=
  match o with
  | some s => !s.isEmpty
  | none => false

/-- The canonical identifier of the designated Environmental Permit
category (ApplicationFeeStep.tsx line 23). -/
def ENVIRONMENTAL_PERMIT_TYPE_ID : String :=
  "1655df4b-bfcf-47de-85fa-c4567c749362"

/-- JavaScript toLowerCase, character by character: lowercases each
character of the string (ASCII case mapping, which covers every code
point this component compares against). -/
def toLowerCase (s : String) : String :=
  String.mk (s.data.map Char.toLower)

/-- ApplicationFeeStep.tsx lines 22-23: the permit counts as an
Environmental Permit when the lowercased `permit_type` equals the
literal string, or `permit_type_id` equals the canonical identifier. -/
def isEnvironmentalPermit (data : StepData) : Bool :=
  (match data.permit_type with
   | some s => toLowerCase s == "environmental"
   | none => false)
  || data.permit_type_id == some ENVIRONMENTAL_PERMIT_TYPE_ID

/-- ApplicationFeeStep.tsx line 25: K2000 composite fee for
Environmental Permit. -/
def COMPOSITE_FEE : Money := 2000

/-- ApplicationFeeStep.tsx lines 31-42: assemble the
`FeeCalculationParams` from the draft data, defaulting an empty
activity category to the string for a new activity and an empty
sub-category to the general one. -/
def mkParams (data : StepData) : FeeCalculationParams :=
  let activityLevel := orEmpty data.activity_level
  let activityCategory := orEmpty data.activity_category
  let activitySubcategory := orEmpty data.activity_subcategory
  let prescribedActivityId := orEmpty data.prescribed_activity_id
  { activityType := if activityCategory = "" then "new" else activityCategory
    activitySubCategory :=
      if activitySubcategory = "" then "general" else activitySubcategory
    permitType := activityLevel
    activityLevel := activityLevel
    prescribedActivityId := prescribedActivityId }

/-- Outcome of parameter validation. -/
structure ValidationResult where
  isValid : Bool
  errors : List String
deriving DecidableEq, Repr

/-- Modelled from the spec: `validateParameters` lives in the
`useFeeCalculation` hook, which is absent from the snapshot. Per the
spec, `activityLevel` must be non-empty, and at least one of
`activityType` and `activitySubCategory` must be non-empty; the
verdict is valid exactly when the error list is empty. -/
def validateParameters (p : FeeCalculationParams) : ValidationResult :=
  let errors :=
    (if p.activityLevel = "" then ["Activity level is required"] else [])
      ++ (if p.activityType = "" ∧ p.activitySubCategory = "" then
            ["At least one of activity type or activity sub-category is required"]
          else [])
  { isValid := errors.isEmpty, errors := errors }

/-- Conservative default processing-day allowance for unrecognized
activity levels. Modelled from the spec: the spec leaves the constant
to the implementer and suggests the longest statutory window. -/
def DEFAULT_PROCESSING_DAYS : ℕ := 90

/-- Statutory processing-day table, a pure function of the activity
level. Modelled from the spec: the resolver is in the absent hook; the
table itself is documented in-source (ApplicationFeeStep.tsx line 190):
Level 2.1 gives 30 days, Levels 2.2/2.3/2.4 give 60 days, Level 3
gives 90 days. -/
def processingDaysFor (activityLevel : String) : ℕ :=
  if activityLevel = "2.1" then 30
  else if activityLevel = "2.2" ∨ activityLevel = "2.3" ∨ activityLevel = "2.4"
    then 60
  else if activityLevel = "3" then 90
  else DEFAULT_PROCESSING_DAYS

/-- Built-in default annual recurrent fee used when no canonical record
matches. Modelled from the spec: the value is a documented built-in
constant of the absent hook; no claim depends on its magnitude. -/
def DEFAULT_ANNUAL_RECURRENT_FEE : Money := 10000

/-- Modelled from the spec: the ActivityClassificationResolver of the
absent hook. The system of record is abstracted as a lookup function
`db` from the request to an optional annual recurrent fee; on a hit
the schedule is marked Database, on a miss it degrades to the built-in
default and is marked Default; the processing-day allowance comes from
the statutory table regardless of the lookup outcome. -/
def resolve (db : FeeCalculationParams → Option Money)
    (p : FeeCalculationParams) : FeeSchedule :=
  match db p with
  | some fee =>
    { annualRecurrentFee := fee
      processingDays := processingDaysFor p.activityLevel
      source := FeeSource.Database }
  | none =>
    { annualRecurrentFee := DEFAULT_ANNUAL_RECURRENT_FEE
      processingDays := processingDaysFor p.activityLevel
      source := FeeSource.Default }

/-- Modelled from the spec: the ProratedFeeFormula of the absent hook.
The administration fee prorates the annual recurrent fee over the
statutory processing days, rounded half-up to 2 decimal places. The
formula is also documented in-source (ApplicationFeeStep.tsx line
184). -/
def computeAdministrationFee (s : FeeSchedule) : Money :=
  roundHalfUp2 (s.annualRecurrentFee / 365 * (s.processingDays : ℚ))

/-- Form identifiers attached to a default-sourced schedule. Modelled
from the spec: placeholders for identifiers of the absent hook; no
claim depends on their values. -/
def DEFAULT_ADMINISTRATION_FORM : String := "administration"

/-- Form identifier placeholder for the technical form, as above. -/
def DEFAULT_TECHNICAL_FORM : String := "technical"

/-- Modelled from the spec: `calculateFeesWithSupabase` of the absent
hook, composing resolver and formula into the breakdown handed back to
the component. Its composite fee is zero (the composite rule is
applied downstream by the component) and its total equals the
administration fee. -/
def calculateFeesWithSupabase (db : FeeCalculationParams → Option Money)
    (p : FeeCalculationParams) : FeeBreakdown :=
  let s := resolve db p
  let admin := computeAdministrationFee s
  { administrationFee := admin
    compositeFee := 0
    totalFee := admin
    processingDays := s.processingDays
    administrationForm := DEFAULT_ADMINISTRATION_FORM
    technicalForm := DEFAULT_TECHNICAL_FORM
    source := s.source }

/-- The awaited outcome of the asynchronous hook call as seen inside
the try block: the promise may reject with an error message, resolve
to a JavaScript-falsy value, or resolve to a breakdown. -/
abbrev LookupOutcome := Except String (Option FeeBreakdown)

/-- ApplicationFeeStep.tsx lines 27-85: `handleCalculateFees`. Clears
the error states, builds the params, gates on validation, then awaits
the lookup; on success it applies the composite-fee rule and invokes
`onChange` (returned as the second component); on a thrown lookup
error it records the message and leaves the stored fees untouched.
The asynchronous lookup is abstracted as a function from params to an
outcome. -/
def handleCalculateFees (lookup : FeeCalculationParams → LookupOutcome)
    (data : StepData) (st : ComponentState) :
    ComponentState × Option OnChangePayload :=
  let st0 := { st with calculationError := "", validationErrors := [] }
  let params := mkParams data
  let validation := validateParameters params
  if !validation.isValid then
    ({ st0 with validationErrors := validation.errors }, none)
  else
    match lookup params with
    | Except.error msg => ({ st0 with calculationError := msg }, none)
    | Except.ok none => (st0, none)
    | Except.ok (some fees) =>
      let compositeFeeAmount : Money :=
        if isEnvironmentalPermit data then COMPOSITE_FEE else 0
      let totalWithComposite := fees.totalFee + compositeFeeAmount
      let updatedFees :=
        { fees with
            compositeFee := compositeFeeAmount
            totalFee := totalWithComposite }
      ({ st0 with
           calculatedFees := some updatedFees
           hasCalculatedOnce := true },
       some
         { administration_fee := fees.totalFee
           composite_fee := compositeFeeAmount
           technical_fee := 0
           total_fee := totalWithComposite
           fee_amount := totalWithComposite
           processing_days := fees.processingDays
           administration_form := fees.administrationForm
           technical_form := fees.technicalForm
           fee_source := fees.source
           calculatedFees := updatedFees
           fee_breakdown := updatedFees })

/-- ApplicationFeeStep.tsx lines 100-108: the core of the
permit-type-change recomputation effect. The composite fee is
recomputed from scratch from the current environmental flag, and the
total is rebuilt from the stored base administration fee. -/
def recalcOnPermitTypeChange (isEnv : Bool) (fb : FeeBreakdown) :
    FeeBreakdown :=
  let compositeFeeAmount : Money := if isEnv then COMPOSITE_FEE else 0
  let baseFee := fb.administrationFee
  { fb with
      compositeFee := compositeFeeAmount
      totalFee := baseFee + compositeFeeAmount }

/-- ApplicationFeeStep.tsx lines 98-120: the recomputation effect as a
state transition. It fires only when a computation has already
happened and a breakdown is stored; it then rebuilds the breakdown and
invokes `onChange` with the partial payload. -/
def permitTypeChangeEffect (isEnv : Bool) (st : ComponentState) :
    ComponentState × Option RecalcPayload :=
  if st.hasCalculatedOnce then
    match st.calculatedFees with
    | some fb =>
      let updatedFees := recalcOnPermitTypeChange isEnv fb
      ({ st with calculatedFees := some updatedFees },
       some
         { composite_fee := updatedFees.compositeFee
           total_fee := updatedFees.totalFee
           fee_amount := updatedFees.totalFee
           calculatedFees := updatedFees
           fee_breakdown := updatedFees })
    | none => (st, none)
  else (st, none)

/-- ApplicationFeeStep.tsx lines 88-95: the guard of the mount-time
auto-calculation effect. It decides whether `handleCalculateFees` is
invoked at all, reading the mutable `hasCalculatedOnce` ref and the
cached `data.calculatedFees`. -/
def autoCalcCondition (data : StepData)
    (hasCalculatedOnce loading : Bool) : Bool :=
  (truthy data.activity_level
      && (truthy data.activity_category || truthy data.activity_subcategory))
    && !hasCalculatedOnce && !loading && data.calculatedFees.isNone

/-! Concrete fixtures used by witnesses and counterexamples. -/

/-- Fresh component state: nothing computed yet. -/
def emptyState : ComponentState :=
  { calculatedFees := none
    calculationError := ""
    validationErrors := []
    hasCalculatedOnce := false }

/-- A draft with a non-Environmental permit type at activity level 2.1. -/
def sampleData : StepData :=
  { permit_type := some "Water Use"
    permit_type_id := none
    activity_level := some "2.1"
    activity_category := some "mining"
    activity_subcategory := none
    prescribed_activity_id := none
    calculatedFees := none }

/-- A draft with no activity level (fails validation). -/
def invalidData : StepData :=
  { permit_type := some "Water Use"
    permit_type_id := none
    activity_level := none
    activity_category := some "mining"
    activity_subcategory := none
    prescribed_activity_id := none
    calculatedFees := none }

/-- A system of record answering every lookup with an annual recurrent
fee of 36500 (the round number of the spec's concrete scenario). -/
def sampleDb : FeeCalculationParams → Option Money := fun _ => some 36500

/-- The hook call against `sampleDb`, resolving normally. -/
def sampleLookup : FeeCalculationParams → LookupOutcome :=
  fun p => Except.ok (some (calculateFeesWithSupabase sampleDb p))

/-- A lookup whose promise rejects. -/
def errorLookup : FeeCalculationParams → LookupOutcome :=
  fun _ => Except.error "Network failure"

/-- A lookup resolving to a JavaScript-falsy value. -/
def nullLookup : FeeCalculationParams → LookupOutcome :=
  fun _ => Except.ok none

/-- The breakdown the spec's concrete scenario expects from
`sampleData` against `sampleDb`. -/
def sampleBreakdown : FeeBreakdown :=
  { administrationFee := 3000
    compositeFee := 0
    totalFee := 3000
    processingDays := 30
    administrationForm := DEFAULT_ADMINISTRATION_FORM
    technicalForm := DEFAULT_TECHNICAL_FORM
    source := FeeSource.Database }

/-- A previously stored breakdown, used to observe that failed
computations leave stored fees untouched. -/
def storedBreakdown : FeeBreakdown :=
  { administrationFee := 500
    compositeFee := 0
    totalFee := 500
    processingDays := 60
    administrationForm := DEFAULT_ADMINISTRATION_FORM
    technicalForm := DEFAULT_TECHNICAL_FORM
    source := FeeSource.Database }

/-- Component state holding `storedBreakdown` after a first run. -/
def storedState : ComponentState :=
  { calculatedFees := some storedBreakdown
    calculationError := ""
    validationErrors := []
    hasCalculatedOnce := true }

/-- The onChange payload the concrete scenario produces for
`sampleData` against `sampleDb`. -/
def samplePayload : OnChangePayload :=
  { administration_fee := 3000
    composite_fee := 0
    technical_fee := 0
    total_fee := 3000
    fee_amount := 3000
    processing_days := 30
    administration_form := DEFAULT_ADMINISTRATION_FORM
    technical_form := DEFAULT_TECHNICAL_FORM
    fee_source := FeeSource.Database
    calculatedFees := sampleBreakdown
    fee_breakdown := sampleBreakdown }

/-- The onChange payload produced when the hook hands back
`storedBreakdown` for a non-Environmental draft. -/
def storedPayload : OnChangePayload :=
  { administration_fee := 500
    composite_fee := 0
    technical_fee := 0
    total_fee := 500
    fee_amount := 500
    processing_days := 60
    administration_form := DEFAULT_ADMINISTRATION_FORM
    technical_form := DEFAULT_TECHNICAL_FORM
    fee_source := FeeSource.Database
    calculatedFees := storedBreakdown
    fee_breakdown := storedBreakdown }

/-! Helper lemmas. -/

/-- Evaluation rule for `roundHalfUp2` given integer floor bounds. -/
theorem roundHalfUp2_eq (q : ℚ) (n : ℤ) (h1 : (n : ℚ) ≤ q * 100 + 1 / 2)
    (h2 : q * 100 + 1 / 2 < (n : ℚ) + 1) : roundHalfUp2 q = (n : ℚ) / 100 := by
  unfold roundHalfUp2
  rw [Int.floor_eq_iff.mpr ⟨h1, h2⟩]

/-- The hook breakdown's total equals its administration fee: the
composite rule is applied downstream by the component. -/
theorem calculateFees_totalFee (db : FeeCalculationParams → Option Money)
    (p : FeeCalculationParams) :
    (calculateFeesWithSupabase db p).totalFee
      = (calculateFeesWithSupabase db p).administrationFee := rfl

/-- C3: the administration fee equals (annualRecurrentFee / 365) *
processingDays rounded half-up to 2 decimal places, for every resolved
schedule and through the hook; concretely, annualRecurrentFee 36500 at
activity level 2.1 (30 processing days) with a non-Environmental
permit type yields administrationFee 3000.00, compositeFee 0 and
totalFee 3000.00 through the whole component pipeline. -/
theorem admin_fee_prorates_annual_fee_over_processing_days :
    (∀ (db : FeeCalculationParams → Option Money) (p : FeeCalculationParams),
        (calculateFeesWithSupabase db p).administrationFee
          = roundHalfUp2 ((resolve db p).annualRecurrentFee / 365
              * ((resolve db p).processingDays : ℚ)))
    ∧ roundHalfUp2 ((36500 : ℚ) / 365 * 30) = 3000
    ∧ (handleCalculateFees sampleLookup sampleData emptyState).1.calculatedFees
        = some sampleBreakdown := by
  refine ⟨fun db p => rfl, ?_, ?_⟩
  · rw [roundHalfUp2_eq ((36500 : ℚ) / 365 * 30) 300000 (by norm_num) (by norm_num)]
    norm_num
  · have hv : (!(validateParameters (mkParams sampleData)).isValid) = false := by decide
    have he : isEnvironmentalPermit sampleData = false := by decide
    have hl : (mkParams sampleData).activityLevel = "2.1" := by decide
    simp [handleCalculateFees, hv, he, sampleLookup, calculateFeesWithSupabase,
      resolve, sampleDb, computeAdministrationFee, hl, processingDaysFor,
      emptyState, sampleBreakdown]
    rw [roundHalfUp2_eq ((36500 : ℚ) / 365 * 30) 300000 (by norm_num) (by norm_num)]
    norm_num

/-- C4: processingDays is a pure function of the activity level alone,
independent of the fee lookup outcome, always drawn from
30/60/90/default: level 2.1 gives 30, levels 2.2, 2.3, 2.4 give 60,
level 3 gives 90, and every other level gives the documented positive
default. -/
theorem processing_days_pure_function_of_level :
    processingDaysFor "2.1" = 30
    ∧ processingDaysFor "2.2" = 60
    ∧ processingDaysFor "2.3" = 60
    ∧ processingDaysFor "2.4" = 60
    ∧ processingDaysFor "3" = 90
    ∧ (∀ lvl : String, lvl ∉ ["2.1", "2.2", "2.3", "2.4", "3"] →
        processingDaysFor lvl = DEFAULT_PROCESSING_DAYS)
    ∧ (∀ lvl : String,
        processingDaysFor lvl = 30 ∨ processingDaysFor lvl = 60
          ∨ processingDaysFor lvl = 90
          ∨ processingDaysFor lvl = DEFAULT_PROCESSING_DAYS)
    ∧ 0 < DEFAULT_PROCESSING_DAYS
    ∧ (∀ (db : FeeCalculationParams → Option Money) (p : FeeCalculationParams),
        (calculateFeesWithSupabase db p).processingDays
          = processingDaysFor p.activityLevel) := by
  refine ⟨rfl, rfl, rfl, rfl, rfl, ?_, ?_, by decide, ?_⟩
  · intro lvl h
    simp only [List.mem_cons, List.mem_singleton, not_or] at h
    obtain ⟨h1, h2, h3, h4, h5, -⟩ := h
    simp [processingDaysFor, h1, h2, h3, h4, h5]
  · intro lvl
    unfold processingDaysFor
    split
    · exact Or.inl rfl
    · split
      · exact Or.inr (Or.inl rfl)
      · split
        · exact Or.inr (Or.inr (Or.inl rfl))
        · exact Or.inr (Or.inr (Or.inr rfl))
  · intro db p
    unfold calculateFeesWithSupabase resolve
    cases db p <;> rfl

/-- C4 witness: activity level "7" is outside the statutory table and
receives the documented default allowance. -/
theorem processing_days_pure_function_of_level_witness :
    ("7" : String) ∉ ["2.1", "2.2", "2.3", "2.4", "3"]
      ∧ processingDaysFor "7" = DEFAULT_PROCESSING_DAYS :=
  ⟨by decide,
   processing_days_pure_function_of_level.2.2.2.2.2.1 "7" (by decide)⟩

/-- C5: recomputation after a permit-type change never accumulates the
composite fee: consecutive recomputations collapse to the last one,
any toggle sequence ending in a given flag equals a single
recomputation with that flag (also at the state-transition level), and
each recomputation rebuilds composite and total from scratch from the
stored base administration fee. -/
theorem permit_toggle_never_accumulates :
    (∀ (e e' : Bool) (fb : FeeBreakdown),
        recalcOnPermitTypeChange e (recalcOnPermitTypeChange e' fb)
          = recalcOnPermitTypeChange e fb)
    ∧ (∀ (es : List Bool) (e : Bool) (fb : FeeBreakdown),
        List.foldl (fun b x => recalcOnPermitTypeChange x b) fb (es ++ [e])
          = recalcOnPermitTypeChange e fb)
    ∧ (∀ (e : Bool) (fb : FeeBreakdown),
        (recalcOnPermitTypeChange e fb).compositeFee
          = if e then COMPOSITE_FEE else 0)
    ∧ (∀ (e : Bool) (fb : FeeBreakdown),
        (recalcOnPermitTypeChange e fb).totalFee
          = fb.administrationFee + (if e then COMPOSITE_FEE else 0))
    ∧ (∀ (e e' : Bool) (st : ComponentState),
        (permitTypeChangeEffect e (permitTypeChangeEffect e' st).1).1
          = (permitTypeChangeEffect e st).1) := by
  have hcollapse : ∀ (e e' : Bool) (fb : FeeBreakdown),
      recalcOnPermitTypeChange e (recalcOnPermitTypeChange e' fb)
        = recalcOnPermitTypeChange e fb := by
    intro e e' fb
    simp [recalcOnPermitTypeChange]
  refine ⟨hcollapse, ?_, fun e fb => rfl, fun e fb => rfl, ?_⟩
  · intro es
    induction es with
    | nil => intro e fb; rfl
    | cons x xs ih =>
      intro e fb
      show List.foldl (fun b y => recalcOnPermitTypeChange y b)
        (recalcOnPermitTypeChange x fb) (xs ++ [e]) = recalcOnPermitTypeChange e fb
      rw [ih e (recalcOnPermitTypeChange x fb), hcollapse]
  · intro e e' st
    unfold permitTypeChangeEffect
    by_cases h : st.hasCalculatedOnce
    · cases hc : st.calculatedFees with
      | none => simp [h, hc]
      | some fb => simp [h, hc, hcollapse]
    · simp [h]

/-- C7: a classification request whose activityType and
activitySubCategory are both empty fails validation with a non-empty
error list. -/
theorem both_categories_empty_fails_validation (p : FeeCalculationParams)
    (h1 : p.activityType = "") (h2 : p.activitySubCategory = "") :
    (validateParameters p).isValid = false
      ∧ (validateParameters p).errors ≠ [] := by
  unfold validateParameters
  simp [h1, h2]

/-- C7 witness: the all-empty request is rejected. -/
theorem both_categories_empty_fails_validation_witness :
    (FeeCalculationParams.activityType ⟨"", "", "", "", ""⟩ = ""
        ∧ FeeCalculationParams.activitySubCategory ⟨"", "", "", "", ""⟩ = "")
      ∧ (validateParameters ⟨"", "", "", "", ""⟩).isValid = false :=
  ⟨⟨rfl, rfl⟩,
   (both_categories_empty_fails_validation ⟨"", "", "", "", ""⟩ rfl rfl).1⟩

/-- C10: the Environmental Permit test holds exactly when the
lowercased permit_type equals the literal string or the permit_type_id
equals the canonical identifier; the name match accepts any casing of
the bare word but rejects display names with extra words. -/
theorem environmental_permit_match_characterization :
    (∀ data : StepData,
        isEnvironmentalPermit data = true ↔
          ((∃ s, data.permit_type = some s ∧ toLowerCase s = "environmental")
            ∨ data.permit_type_id = some ENVIRONMENTAL_PERMIT_TYPE_ID))
    ∧ isEnvironmentalPermit
        { permit_type := some "EnViRoNmEnTaL", permit_type_id := none
          activity_level := none, activity_category := none
          activity_subcategory := none, prescribed_activity_id := none
          calculatedFees := none } = true
    ∧ isEnvironmentalPermit
        { permit_type := some "Environmental Permit", permit_type_id := none
          activity_level := none, activity_category := none
          activity_subcategory := none, prescribed_activity_id := none
          calculatedFees := none } = false
    ∧ isEnvironmentalPermit
        { permit_type := none
          permit_type_id := some "1655df4b-bfcf-47de-85fa-c4567c749362"
          activity_level := none, activity_category := none
          activity_subcategory := none, prescribed_activity_id := none
          calculatedFees := none } = true
    ∧ ENVIRONMENTAL_PERMIT_TYPE_ID = "1655df4b-bfcf-47de-85fa-c4567c749362" := by
  refine ⟨?_, by decide, by decide, by decide, rfl⟩
  intro data
  unfold isEnvironmentalPermit
  cases data.permit_type with
  | none => simp
  | some s => simp

/-- C1: every breakdown returned to the caller satisfies totalFee =
administrationFee + compositeFee, both on an initial computation
(where the total adds the composite amount to the hook result's
totalFee) and on every permit-type-change recomputation (where the
total is rebuilt from the stored administrationFee). -/
theorem total_fee_is_admin_plus_composite
    (db : FeeCalculationParams → Option Money) (data : StepData)
    (st : ComponentState) (payload : OnChangePayload)
    (h : (handleCalculateFees
        (fun p => Except.ok (some (calculateFeesWithSupabase db p)))
        data st).2 = some payload) :
    (payload.calculatedFees.totalFee
        = payload.calculatedFees.administrationFee
          + payload.calculatedFees.compositeFee
      ∧ payload.fee_breakdown.totalFee
          = payload.fee_breakdown.administrationFee
            + payload.fee_breakdown.compositeFee)
    ∧ ∀ (isEnv : Bool) (fb : FeeBreakdown),
        (recalcOnPermitTypeChange isEnv fb).totalFee
          = (recalcOnPermitTypeChange isEnv fb).administrationFee
            + (recalcOnPermitTypeChange isEnv fb).compositeFee := by
  refine ⟨?_, fun isEnv fb => rfl⟩
  unfold handleCalculateFees at h
  by_cases hv : (validateParameters (mkParams data)).isValid = true
  · simp only [hv, Bool.not_true, Bool.false_eq_true, if_false,
      Option.some.injEq] at h
    subst h
    constructor <;> simp [calculateFeesWithSupabase]
  · simp [Bool.not_eq_true] at hv
    simp [hv] at h

/-- C1 witness: the concrete scenario's payload satisfies the
invariant. -/
theorem total_fee_is_admin_plus_composite_witness :
    (handleCalculateFees sampleLookup sampleData emptyState).2
        = some samplePayload
      ∧ (samplePayload.calculatedFees.totalFee
          = samplePayload.calculatedFees.administrationFee
            + samplePayload.calculatedFees.compositeFee
        ∧ samplePayload.fee_breakdown.totalFee
            = samplePayload.fee_breakdown.administrationFee
              + samplePayload.fee_breakdown.compositeFee) := by
  have hp : (handleCalculateFees sampleLookup sampleData emptyState).2
      = some samplePayload := by
    have hv : (!(validateParameters (mkParams sampleData)).isValid) = false := by
      decide
    have he : isEnvironmentalPermit sampleData = false := by decide
    have hl : (mkParams sampleData).activityLevel = "2.1" := by decide
    simp [handleCalculateFees, hv, he, sampleLookup, calculateFeesWithSupabase,
      resolve, sampleDb, computeAdministrationFee, hl, processingDaysFor,
      emptyState, samplePayload, sampleBreakdown]
    rw [roundHalfUp2_eq ((36500 : ℚ) / 365 * 30) 300000 (by norm_num)
      (by norm_num)]
    norm_num
  exact ⟨hp,
    (total_fee_is_admin_plus_composite sampleDb sampleData emptyState
      samplePayload hp).1⟩

/-- C2: the composite fee is exactly 0 for a non-Environmental permit
type and exactly the constant 2000 for the Environmental one,
independent of every field of the hook's breakdown (hence of
annualRecurrentFee and processingDays). -/
theorem composite_fee_zero_or_constant
    (fees : FeeBreakdown) (data : StepData) (st : ComponentState)
    (payload : OnChangePayload)
    (h : (handleCalculateFees (fun _ => Except.ok (some fees)) data st).2
        = some payload) :
    (payload.composite_fee
        = (if isEnvironmentalPermit data then COMPOSITE_FEE else 0)
      ∧ payload.calculatedFees.compositeFee
          = (if isEnvironmentalPermit data then COMPOSITE_FEE else 0))
    ∧ COMPOSITE_FEE = 2000 := by
  refine ⟨?_, rfl⟩
  unfold handleCalculateFees at h
  by_cases hv : (validateParameters (mkParams data)).isValid = true
  · simp only [hv, Bool.not_true, Bool.false_eq_true, if_false,
      Option.some.injEq] at h
    subst h
    exact ⟨rfl, rfl⟩
  · simp [Bool.not_eq_true] at hv
    simp [hv] at h

/-- C2 witness: a non-Environmental draft gets composite fee 0 even
though the hook breakdown carries arbitrary values. -/
theorem composite_fee_zero_or_constant_witness :
    (handleCalculateFees (fun _ => Except.ok (some storedBreakdown))
          sampleData emptyState).2 = some storedPayload
      ∧ (storedPayload.composite_fee
          = (if isEnvironmentalPermit sampleData then COMPOSITE_FEE else 0)
        ∧ storedPayload.calculatedFees.compositeFee
            = (if isEnvironmentalPermit sampleData then COMPOSITE_FEE else 0)) := by
  have hp : (handleCalculateFees (fun _ => Except.ok (some storedBreakdown))
      sampleData emptyState).2 = some storedPayload := by
    have hv : (!(validateParameters (mkParams sampleData)).isValid) = false := by
      decide
    have he : isEnvironmentalPermit sampleData = false := by decide
    simp [handleCalculateFees, hv, he, emptyState, storedPayload,
      storedBreakdown]
  exact ⟨hp,
    (composite_fee_zero_or_constant storedBreakdown sampleData emptyState
      storedPayload hp).1⟩

/-- C6: when validation fails the computation short-circuits: the
result is the same whatever the lookup does, the validator's errors
are surfaced verbatim, the stored fees are untouched and no result is
handed to the caller; an empty activityLevel in particular fails
validation. -/
theorem validation_failure_short_circuits
    (lookup1 lookup2 : FeeCalculationParams → LookupOutcome)
    (data : StepData) (st : ComponentState)
    (h : (validateParameters (mkParams data)).isValid = false) :
    (handleCalculateFees lookup1 data st = handleCalculateFees lookup2 data st
      ∧ (handleCalculateFees lookup1 data st).1.validationErrors
          = (validateParameters (mkParams data)).errors
      ∧ (handleCalculateFees lookup1 data st).1.calculatedFees
          = st.calculatedFees
      ∧ (handleCalculateFees lookup1 data st).2 = none)
    ∧ ∀ p : FeeCalculationParams, p.activityLevel = "" →
        (validateParameters p).isValid = false := by
  refine ⟨?_, ?_⟩
  · unfold handleCalculateFees
    simp [h]
  · intro p hp
    unfold validateParameters
    simp [hp]

/-- C6 witness: a draft without an activity level is rejected
identically under a rejecting lookup and a null lookup. -/
theorem validation_failure_short_circuits_witness :
    (validateParameters (mkParams invalidData)).isValid = false
      ∧ handleCalculateFees errorLookup invalidData storedState
          = handleCalculateFees nullLookup invalidData storedState :=
  ⟨by decide,
   (validation_failure_short_circuits errorLookup nullLookup invalidData
      storedState (by decide)).1.1⟩

/-- C9: when the asynchronous lookup throws, the caller gets an
explicit error and nothing else: onChange is not invoked, the stored
breakdown is left unchanged, and the error message is recorded. -/
theorem lookup_failure_leaves_no_partial_state
    (lookup : FeeCalculationParams → LookupOutcome)
    (data : StepData) (st : ComponentState) (msg : String)
    (hv : (validateParameters (mkParams data)).isValid = true)
    (hl : lookup (mkParams data) = Except.error msg) :
    handleCalculateFees lookup data st
      = ({ st with calculationError := msg, validationErrors := [] }, none) := by
  unfold handleCalculateFees
  simp [hv, hl]

/-- C9 witness: a rejecting lookup on a valid draft records the error
message and leaves the previously stored breakdown in place. -/
theorem lookup_failure_leaves_no_partial_state_witness :
    ((validateParameters (mkParams sampleData)).isValid = true
      ∧ errorLookup (mkParams sampleData) = Except.error "Network failure")
      ∧ handleCalculateFees errorLookup sampleData storedState
          = ({ storedState with
               calculationError := "Network failure",
               validationErrors := [] }, none) :=
  ⟨⟨by decide, rfl⟩,
   lookup_failure_leaves_no_partial_state errorLookup sampleData storedState
     "Network failure" (by decide) rfl⟩

/-- C8 counterexample: the mutable hasCalculatedOnce flag does
influence whether a computation runs: with identical draft data the
mount-time auto-computation fires exactly when the flag is unset, and
the permit-type recomputation fires exactly when it is set. -/
theorem engine_statelessness_counterexample :
    autoCalcCondition sampleData false false = true
      ∧ autoCalcCondition sampleData true false = false
      ∧ permitTypeChangeEffect true
          { emptyState with calculatedFees := some storedBreakdown }
          = ({ emptyState with calculatedFees := some storedBreakdown }, none)
      ∧ (permitTypeChangeEffect true storedState).2 ≠ none := by
  refine ⟨by decide, by decide, rfl, ?_⟩
  simp [permitTypeChangeEffect, storedState]

/-- C8 amended: the fee computation itself is stateless: the payload
handed to the caller depends only on the draft data and the lookup
outcome, never on prior component state; but the component keeps a
mutable hasCalculatedOnce flag (and a cached breakdown) that gate
whether the auto-computation and the permit-type recomputation run at
all: the auto-computation never fires once the flag is set, and the
recomputation never fires before it is set. -/
theorem computation_stateless_but_effects_gated :
    (∀ (lookup : FeeCalculationParams → LookupOutcome) (data : StepData)
        (st1 st2 : ComponentState),
        (handleCalculateFees lookup data st1).2
          = (handleCalculateFees lookup data st2).2)
    ∧ (∀ (data : StepData) (loading : Bool),
        autoCalcCondition data true loading = false)
    ∧ (∀ (e : Bool) (st : ComponentState), st.hasCalculatedOnce = false →
        permitTypeChangeEffect e st = (st, none)) := by
  refine ⟨?_, ?_, ?_⟩
  · intro lookup data st1 st2
    unfold handleCalculateFees
    by_cases hv : (validateParameters (mkParams data)).isValid = true
    · cases hl : lookup (mkParams data) with
      | error msg => simp [hv, hl]
      | ok o => cases o <;> simp [hv, hl]
    · simp [Bool.not_eq_true] at hv
      simp [hv]
  · intro data loading
    simp [autoCalcCondition]
  · intro e st h
    unfold permitTypeChangeEffect
    simp [h]

/-- C8 amended witness: on a fresh state the recomputation effect does
nothing. -/
theorem computation_stateless_but_effects_gated_witness :
    emptyState.hasCalculatedOnce = false
      ∧ permitTypeChangeEffect true emptyState = (emptyState, none) :=
  ⟨rfl, computation_stateless_but_effects_gated.2.2 true emptyState rfl⟩

end CepaFee
